import Mathlib

/-!
Shallow embedding of the docker volume repository and plugin subsystem.

The Go sources embedded here are:
  volumes/repository.go, volumes/volume.go, volumes/volumedriver/driver.go,
  volumes/volumedriver/opts.go, the vfs and host volume drivers, the plugin
  process manager (ExecServer) and routers (Plugin.dispatch, the graphdriver
  child router), and the plugin graphdriver client facade.

Go errors are modelled as strings (the error message); a nil error is the
absence of an error (Option / Except).  Filesystem and process effects are
made explicit: pure oracles passed as parameters (symlink resolution, stat
results, file contents) and effect traces returned alongside results.
-/

namespace DockerVol

/-- Go error values are modelled by their message string. -/
abbrev GoError := String

/-- volumedriver.DriverNotExist in volumedriver/driver.go. -/
def volumedriverDriverNotExist : GoError := "volume driver does not exist"

/-- volumedriver.DataExist in volumedriver/driver.go. -/
def volumedriverDataExist : GoError := "data exists"

/-- volumes.DriverNotExist in repository.go. -/
def repoDriverNotExist : GoError := "driver does not exist"

/-- volumes.IdGenerateErr in repository.go. -/
def repoIdGenerateErr : GoError := "failed to generate unique volume ID"

/-- volumes.DataExist in repository.go: volumedriver.DataExist.Error() + " - not managing". -/
def repoDataExist : GoError := volumedriverDataExist ++ " - not managing"

/-- volumedriver.OptsKeyNotExistError in volumedriver/opts.go. -/
def optsKeyNotExistError : GoError := "volume driver opts - missing key"

instance {ε α : Type} [DecidableEq ε] [DecidableEq α] : DecidableEq (Except ε α) :=
  fun x y =>
    match x, y with
    | .ok a, .ok b =>
      if h : a = b then isTrue (by rw [h])
      else isFalse (fun hc => by cases hc; exact h rfl)
    | .error a, .error b =>
      if h : a = b then isTrue (by rw [h])
      else isFalse (fun hc => by cases hc; exact h rfl)
    | .ok _, .error _ => isFalse (fun hc => Except.noConfusion hc)
    | .error _, .ok _ => isFalse (fun hc => Except.noConfusion hc)

/-- Split a character list at the first occurrence of the separator. -/
def splitAtChar (sep : Char) : List Char → Option (List Char × List Char)
  | [] => none
  | c :: rest =>
    if c = sep then some ([], rest)
    else
      match splitAtChar sep rest with
      | none => none
      | some (k, v) => some (c :: k, v)

/-- Modelled from the spec: pkg/parsers.ParseKeyValueOpt (not under src/).
Splits an option at the first "=" into key and value; a string without "="
is a parse error.  Space trimming is not modelled: no option built by this
code contains spaces. -/
def parseKeyValueOpt (opt : String) : Except GoError (String × String) :=
  match splitAtChar '=' opt.data with
  | none => .error ("Unable to parse key/value option: " ++ opt)
  | some (k, v) => .ok (⟨k⟩, ⟨v⟩)

/-- DriverOpts.Get in volumedriver/opts.go: scan the ordered opt strings,
return the value of the first entry whose key matches; a parse error of any
entry reached aborts; a missing key yields OptsKeyNotExistError. -/
def driverOptsGet (opts : List String) (key : String) : Except GoError String :=
  match opts with
  | [] => .error optsKeyNotExistError
  | o :: rest =>
    match parseKeyValueOpt o with
    | .error e => .error e
    | .ok (k, v) => if key = k then .ok v else driverOptsGet rest key

/-- Models Go path joining (filepath.Join / string concatenation with "/")
for the clean, slash-normalised components this code builds. -/
def pathJoin (a b : String) : String := a ++ "/" ++ b

/-- Models filepath.Clean restricted to already-clean paths. -/
def filepathClean (p : String) : String := p

/-- Models filepath.Base for clean paths: the last path component. -/
def filepathBase (p : String) : String :=
  let revTail := p.data.reverse.takeWhile (fun c => c ≠ '/')
  if revTail.isEmpty then "." else ⟨revTail.reverse⟩

/-- Models filepath.Dir for clean multi-component paths: everything before
the last path separator. -/
def filepathDir (p : String) : String :=
  match p.data.reverse.dropWhile (fun c => c ≠ '/') with
  | [] => "."
  | _ :: tail => if tail.isEmpty then "/" else ⟨tail.reverse⟩

/-- Result of an os.Stat call, as far as this code inspects it. -/
inductive StatRes where
  | ok
  | notExist
  | errOther (e : GoError)
deriving DecidableEq, Repr

/-- The filesystem oracle a driver constructor consults: symlink resolution
(filepath.EvalSymlinks, none = resolution error) and stat results. -/
structure FS where
  evalSymlinks : String → Option String
  stat : String → StatRes

/-- The vfs Driver struct (vfs driver source). -/
structure VfsDriver where
  ID : String
  MountLabel : String
  Path : String
deriving DecidableEq, Repr

/-- The host Driver struct (host driver source). -/
structure HostDriver where
  Path : String
deriving DecidableEq, Repr

/-- The derived-path branch of vfs Init: path = Join(Clean(home), "dir", Base(id)). -/
def vfsDerivedPath (options : List String) : Except GoError String := do
  let home ← driverOptsGet options "home"
  let id ← driverOptsGet options "id"
  .ok (pathJoin (pathJoin (filepathClean home) "dir") (filepathBase id))

/-- vfs Init.  The source takes an explicit "path" opt when present and
non-empty, otherwise derives the path from "home" and "id"; resolves
symlinks when resolution succeeds; then returns volumedriver.DataExist
exactly when os.Stat of the path fails with an error other than not-exist.
The constructed ID field is always the zero value: the source declares an
outer id but the fetch inside the derived-path block shadows it. -/
def vfsInit (fs : FS) (options : List String) : Except GoError VfsDriver :=
  let pathStep : Except GoError String :=
    match driverOptsGet options "path" with
    | .ok p => if p = "" then vfsDerivedPath options else .ok p
    | .error _ => vfsDerivedPath options
  match pathStep with
  | .error e => .error e
  | .ok path0 =>
    let path := (fs.evalSymlinks path0).getD path0
    match fs.stat path with
    | .errOther _ => .error volumedriverDataExist
    | _ => .ok { ID := "", MountLabel := "", Path := path }

/-- host Init: requires a "path" opt, cleans it and resolves symlinks when
resolution succeeds. -/
def hostInit (fs : FS) (options : List String) : Except GoError HostDriver := do
  let p ← driverOptsGet options "path"
  let p := filepathClean p
  let p := (fs.evalSymlinks p).getD p
  .ok { Path := p }

/-- A concrete volume driver instance (the volumedriver.Driver interface,
restricted to the two registered local implementations). -/
inductive VDriver where
  | vfs (d : VfsDriver)
  | host (d : HostDriver)
deriving DecidableEq, Repr

/-- Driver.String(): both drivers return their Path. -/
def VDriver.str : VDriver → String
  | .vfs d => d.Path
  | .host d => d.Path

/-- volumedriver.NewDriver: the registry holds the vfs and host constructors
registered at init; unknown names fail with DriverNotExist. -/
def NewDriver (fs : FS) (name : String) (opts : List String) : Except GoError VDriver :=
  if name = "vfs" then (vfsInit fs opts).map VDriver.vfs
  else if name = "host" then (hostInit fs opts).map VDriver.host
  else .error volumedriverDriverNotExist

/-- The persisted volumeConfig record {DriverName, Opts}. -/
structure VolumeConfig where
  DriverName : String
  Opts : List String
deriving DecidableEq, Repr

/-- The Volume struct of volumes/volume.go.  config models the embedded
pointer to volumeConfig (none = nil) and driver the embedded
volumedriver.Driver interface (none = nil interface). -/
structure Volume where
  ID : String
  containers : List String
  configPath : String
  config : Option VolumeConfig
  driver : Option VDriver
  Path : String := ""
  Writable : Bool := false
deriving DecidableEq, Repr

/-- Volume.Containers(): a snapshot of the container-reference set (the Go
map iteration is modelled by the list order). -/
def Volume.Containers (v : Volume) : List String := v.containers

/-- Volume.AddContainer. -/
def Volume.AddContainer (v : Volume) (containerId : String) : Volume :=
  { v with containers := if containerId ∈ v.containers then v.containers
                         else containerId :: v.containers }

/-- Volume.RemoveContainer. -/
def Volume.RemoveContainer (v : Volume) (containerId : String) : Volume :=
  { v with containers := v.containers.filter (fun c => c ≠ containerId) }

/-- Go map lookup over an association list (first binding wins; insertion
prepends, deletion removes every binding of the key). -/
def assocGet {α : Type} (m : List (String × α)) (k : String) : Option α :=
  match m with
  | [] => none
  | (k', v) :: rest => if k' = k then some v else assocGet rest k

/-- Go map assignment m[k] = v. -/
def assocPut {α : Type} (k : String) (v : α) (m : List (String × α)) :
    List (String × α) := (k, v) :: m

/-- Go delete(m, k). -/
def assocDel {α : Type} (k : String) (m : List (String × α)) :
    List (String × α) := m.filter (fun p => p.1 ≠ k)

/-- Result of a Go call that can return normally, return an error, or panic
(the nil-interface method call). -/
inductive GoResult (α : Type) where
  | ok (a : α)
  | err (e : GoError)
  | panic
deriving Repr, DecidableEq

/-- The Repository struct: the path-keyed map and the id index. -/
structure Repository where
  configPath : String
  storePath : String := ""
  volumes : List (String × Volume)
  idIndex : List (String × Volume)
deriving DecidableEq, Repr

/-- Repository.get: lookup in the path-keyed map only. -/
def Repository.get (r : Repository) (path : String) : Option Volume :=
  assocGet r.volumes path

/-- Repository.add: keyed by volume.String(); a nil driver makes the
String() call panic.  Registers in both maps when the key is free. -/
def Repository.add (r : Repository) (v : Volume) : GoResult Repository :=
  match v.driver with
  | none => .panic
  | some d =>
    match r.get d.str with
    | some _ => .err ("Volume exists: " ++ v.ID)
    | none => .ok { r with volumes := assocPut d.str v r.volumes,
                           idIndex := assocPut v.ID v r.idIndex }

/-- The loop body of Repository.generateId: draw rand i, succeed on the
first candidate absent from the id index, at most fuel draws. -/
def generateIdLoop (r : Repository) (rand : Nat → String) :
    Nat → Nat → Except GoError String
  | _, 0 => .error repoIdGenerateErr
  | i, fuel + 1 =>
    let id := rand i
    if (assocGet r.idIndex id).isSome then generateIdLoop r rand (i + 1) fuel
    else .ok id

/-- Repository.generateId: five draws from the random-id stream. -/
def Repository.generateId (r : Repository) (rand : Nat → String) :
    Except GoError String :=
  generateIdLoop r rand 0 5

/-- Repository.newVolume: generate an id, append the id= and home= opts,
construct the driver, translating volumedriver.DataExist (and only that
error value) into the repository DataExist error. -/
def Repository.newVolume (r : Repository) (rand : Nat → String) (fs : FS)
    (driverName : String) (opts : List String) : Except GoError Volume :=
  match r.generateId rand with
  | .error e => .error e
  | .ok id =>
    let opts := opts ++ ["id=" ++ id,
                         "home=" ++ pathJoin (filepathDir r.configPath) driverName]
    match NewDriver fs driverName opts with
    | .error e =>
      if e = volumedriverDataExist then .error repoDataExist else .error e
    | .ok d =>
      .ok { ID := id, driver := some d, containers := [],
            config := some { DriverName := driverName, Opts := opts },
            configPath := pathJoin r.configPath id }

/-- Space-separated join of a list of strings. -/
def joinSpace : List String → String
  | [] => ""
  | [x] => x
  | x :: rest => x ++ " " ++ joinSpace rest

/-- Go fmt of a []string with %s: "[a b c]". -/
def goSliceStr (xs : List String) : String :=
  "[" ++ joinSpace xs ++ "]"

/-- The error message Delete produces for an in-use volume; it renders the
referencing container ids. -/
def inUseMsg (v : Volume) : String :=
  "Volume " ++ v.Path ++ " is being used and cannot be removed: used by containers "
    ++ goSliceStr v.Containers

/-- On-disk and driver side effects Delete can perform. -/
inductive Effect where
  | removeAll (path : String)
  | driverRemove (path : String)
deriving DecidableEq, Repr

/-- The outcome of Repository.Delete: the repository state after the call,
the effects performed, and the error if any; panic models the nil-interface
method call. -/
inductive DelResult where
  | ok (r : Repository) (effects : List Effect)
  | err (e : GoError) (r : Repository) (effects : List Effect)
  | panic (effects : List Effect)
deriving DecidableEq, Repr

/-- Repository.Delete: resolve in the path-keyed map; refuse when the
container set is non-empty; otherwise remove the config directory, call the
driver Remove, and unregister from both maps.  removeAllErr and
driverRemoveErr are the effect oracles (none = success). -/
def Repository.Delete (r : Repository) (removeAllErr : String → Option GoError)
    (driverRemoveErr : VDriver → Option GoError) (id : String) : DelResult :=
  match r.get id with
  | none => .err ("Volume " ++ id ++ " does not exist") r []
  | some volume =>
    let containers := volume.Containers
    if containers.length > 0 then
      .err (inUseMsg volume) r []
    else
      match removeAllErr volume.configPath with
      | some e => .err e r [.removeAll volume.configPath]
      | none =>
        match volume.driver with
        | none => .panic [.removeAll volume.configPath]
        | some d =>
          match driverRemoveErr d with
          | some e => .err e r [.removeAll volume.configPath, .driverRemove d.str]
          | none =>
            .ok { r with volumes := assocDel d.str r.volumes,
                         idIndex := assocDel volume.ID r.idIndex }
              [.removeAll volume.configPath, .driverRemove d.str]

/-- Repository.FindOrCreateVolume: default the driver name, build a candidate
volume, return the already-registered volume when one exists under the same
driver string, otherwise create, persist and register.  createErr and
persistErr are the effect oracles for driver.Create() and toDisk(). -/
def Repository.FindOrCreateVolume (r : Repository) (rand : Nat → String) (fs : FS)
    (createErr : VDriver → Option GoError) (persistErr : Volume → Option GoError)
    (driverName : String) (opts : List String) : GoResult (Volume × Repository) :=
  let dn := if driverName = "" then "vfs" else driverName
  match r.newVolume rand fs dn opts with
  | .error e => .err e
  | .ok v =>
    match v.driver with
    | none => .panic
    | some d =>
      match r.get d.str with
      | some existing => .ok (existing, r)
      | none =>
        match createErr d with
        | some e => .err e
        | none =>
          match persistErr v with
          | some e => .err e
          | none =>
            match r.add v with
            | .ok rr => .ok (v, rr)
            | .err e => .err e
            | .panic => .panic

/-- The JSON record json.Marshal writes for a Volume: the exported Volume
fields, the promoted volumeConfig fields, and the concrete driver value
under the Driver key. -/
structure StoredJson where
  DriverName : String
  Opts : List String
  ID : String
  Path : String
  Writable : Bool
  DriverObj : Option VDriver
deriving DecidableEq, Repr

/-- Contents of a config.json file: either undecodable or a decoded record. -/
inductive JsonVal where
  | bad (msg : String)
  | good (j : StoredJson)
deriving DecidableEq, Repr

/-- Result of ioutil.ReadFile on a path. -/
inductive ReadFileRes where
  | notExist
  | errRead (e : GoError)
  | found (v : JsonVal)
deriving DecidableEq, Repr

/-- A Go error together with its os.IsNotExist classification. -/
structure GoErr where
  msg : String
  notExist : Bool := false
deriving DecidableEq, Repr

/-- Volume.toDisk serialisation: json.Marshal of the Volume (a nil embedded
volumeConfig would leave the promoted fields at their zero values). -/
def Volume.marshal (v : Volume) : StoredJson :=
  { DriverName := (v.config.map (·.DriverName)).getD ""
    Opts := (v.config.map (·.Opts)).getD []
    ID := v.ID
    Path := v.Path
    Writable := v.Writable
    DriverObj := v.driver }

/-- The Go toolchain generation the decode semantics depend on: before
Go 1.10 json.Unmarshal panics when it must allocate a nil embedded pointer
to an unexported struct type; from Go 1.10 on it saves a decode error and
skips the field. -/
inductive GoVer where
  | go19
  | go110
deriving DecidableEq, Repr

/-- The decode error Go 1.10 and later produce for the nil unexported
embedded pointer. -/
def jsonEmbeddedPtrErr : GoError :=
  "json: cannot set embedded pointer to unexported struct: volumes.volumeConfig"

/-- Outcome of a fromDisk call: success, error, or runtime panic. -/
inductive FromDiskRes where
  | ok (v : Volume)
  | err (e : GoErr)
  | panic
deriving DecidableEq, Repr

/-- Volume.fromDisk: read configPath/config.json, decode the volumeConfig
into a fresh pointer, reconstruct the driver by name and opts, then run the
second json.Unmarshal of the full record onto the volume.  That second
decode must set the promoted DriverName and Opts keys through the embedded
volumeConfig pointer, which fromDisk never allocates: when the volume holds
none (as every caller does) the decoder panics before Go 1.10 and fails
with a saved decode error from Go 1.10 on, so the stored record is never
reconstructed.  Only with a non-nil embedded config would the decode
succeed, overwriting the reconstructed driver fields with the stored Driver
object (json decodes into the non-nil pointer held by the interface). -/
def Volume.fromDisk (ver : GoVer) (fs : FS) (disk : String → ReadFileRes)
    (v : Volume) : FromDiskRes :=
  let pth := pathJoin v.configPath "config.json"
  match disk pth with
  | .notExist => .err { msg := "open " ++ pth ++ ": no such file or directory",
                        notExist := true }
  | .errRead e => .err { msg := e }
  | .found (.bad m) =>
    .err { msg := "error getting driver from volume config json: " ++ m }
  | .found (.good j) =>
    match NewDriver fs j.DriverName j.Opts with
    | .error e => .err { msg := e }
    | .ok d =>
      match v.config with
      | none =>
        match ver with
        | .go19 => .panic
        | .go110 =>
          .err { msg := "error reading volume config json: " ++ jsonEmbeddedPtrErr }
      | some _ =>
        let d' := match j.DriverObj, d with
          | some (.vfs jd), .vfs _ => VDriver.vfs jd
          | some (.host jd), .host _ => VDriver.host jd
          | _, d => d
        .ok { v with driver := some d',
                     config := some { DriverName := j.DriverName, Opts := j.Opts },
                     ID := j.ID, Path := j.Path, Writable := j.Writable }

/-- The loop of Repository.restore over the configRoot subdirectory names.
A fromDisk failure other than not-exist logs and skips the entry; a
not-exist failure falls through, so the driverless volume reaches add,
whose String() call on the nil driver interface panics.  An add error is
logged and the loop continues. -/
def restoreLoop (ver : GoVer) (fs : FS) (disk : String → ReadFileRes)
    (r : Repository) : List String → GoResult Repository
  | [] => .ok r
  | id :: rest =>
    let vol : Volume := { ID := id, configPath := pathJoin r.configPath id,
                          containers := [], config := none, driver := none }
    match vol.fromDisk ver fs disk with
    | .panic => .panic
    | .err e =>
      if e.notExist then
        match r.add vol with
        | .ok rr => restoreLoop ver fs disk rr rest
        | .err _ => restoreLoop ver fs disk r rest
        | .panic => .panic
      else
        restoreLoop ver fs disk r rest
    | .ok vol' =>
      match r.add vol' with
      | .ok rr => restoreLoop ver fs disk rr rest
      | .err _ => restoreLoop ver fs disk r rest
      | .panic => .panic

/-- Repository.restore, after a successful ReadDir of configRoot yielded the
given subdirectory names. -/
def Repository.restore (r : Repository) (ver : GoVer) (fs : FS)
    (disk : String → ReadFileRes) (entries : List String) : GoResult Repository :=
  restoreLoop ver fs disk r entries

/-! ## Process manager: ExecServer (plugin package) -/

/-- The ExecServer state: cmd is the child handle (none until a successful
Start), stdin the write end of the standard-input pipe. -/
structure ExecServer where
  cmd : Option Nat := none
  stdin : Option Nat := none
  hasIn : Bool := false
  hasOut : Bool := false
deriving DecidableEq, Repr

/-- Observable process events of Start and Stop. -/
inductive ProcEv where
  | spawned (pid : Nat)
  | closedStdin (h : Nat)
  | waited (pid : Nat)
deriving DecidableEq, Repr

/-- The environment oracle for one Start attempt: each fallible step either
succeeds (none) or fails with an error, in the order the source performs
them; pid and stdinHandle identify the resources a successful spawn makes. -/
structure SpawnEnv where
  socketPairsErr : Option GoError := none
  fileConnOutErr : Option GoError := none
  fileConnInErr : Option GoError := none
  stdinPipeErr : Option GoError := none
  startErr : Option GoError := none
  outTransportErr : Option GoError := none
  sendChanErr : Option GoError := none
  inTransportErr : Option GoError := none
  recvChanErr : Option GoError := none
  pid : Nat := 0
  stdinHandle : Nat := 0

/-- ExecServer.Start: refuse when a child is already loaded; otherwise
create socket pairs, open the file connections, prepare the command with a
stdin pipe, spawn the child, and complete the channel handshake.  The spawn
event happens exactly when cmd.Start() succeeds; handshake failures after
it leave the state unchanged (the source closes the connections and
returns the error). -/
def ExecServer.Start (s : ExecServer) (env : SpawnEnv) :
    ExecServer × List ProcEv × Option GoError :=
  match s.cmd with
  | some _ => (s, [], some "Plugin already loaded")
  | none =>
    match env.socketPairsErr with
    | some e => (s, [], some e)
    | none =>
      match env.fileConnOutErr with
      | some e => (s, [], some e)
      | none =>
        match env.fileConnInErr with
        | some e => (s, [], some e)
        | none =>
          match env.stdinPipeErr with
          | some e => (s, [], some e)
          | none =>
            match env.startErr with
            | some e => (s, [], some e)
            | none =>
              match env.outTransportErr with
              | some e => (s, [.spawned env.pid], some e)
              | none =>
                match env.sendChanErr with
                | some e => (s, [.spawned env.pid], some e)
                | none =>
                  match env.inTransportErr with
                  | some e => (s, [.spawned env.pid], some e)
                  | none =>
                    match env.recvChanErr with
                    | some e => (s, [.spawned env.pid], some e)
                    | none =>
                      ({ s with cmd := some env.pid, stdin := some env.stdinHandle,
                                hasIn := true, hasOut := true },
                       [.spawned env.pid], none)

/-- ExecServer.Stop: refuse when never started; otherwise close the stdin
pipe (when open) and wait for the child, surfacing the exit error. -/
def ExecServer.Stop (s : ExecServer) (closeErr : Option GoError)
    (waitErr : Option GoError) : ExecServer × List ProcEv × Option GoError :=
  match s.cmd with
  | none => (s, [], some "Not started")
  | some pid =>
    match s.stdin with
    | none => (s, [.waited pid], waitErr)
    | some h =>
      match closeErr with
      | some e => (s, [.closedStdin h], some e)
      | none => (s, [.closedStdin h, .waited pid], waitErr)

/-! ## Message routers (Plugin.dispatch and the graphdriver child router) -/

/-- Plugin.dispatch (plugin package): look up the handler by Func name,
fail with the unsupported-function error when absent; otherwise run the
handler on the envelope payload, returning its error, or the error of
sending its response.  Returns the trace of invoked handler names, the
responses sent, and the call result. -/
def pluginDispatch {α β : Type} (router : List (String × (α → Except GoError β)))
    (sendRes : β → Option GoError) (func : String) (env : α) :
    List String × List β × Option GoError :=
  match assocGet router func with
  | none => ([], [], some (func ++ " not supported"))
  | some h =>
    match h env with
    | .error e => ([func], [], some e)
    | .ok resp => ([func], [resp], sendRes resp)

/-- The graphdriver child router dispatch (api/server/chan.go Driver):
handlers send their own reply and return its error. -/
def driverDispatch {α : Type} (router : List (String × (α → Option GoError)))
    (func : String) (msg : α) : List String × Option GoError :=
  match assocGet router func with
  | none => ([], some (func ++ " not supported"))
  | some h => ([func], h msg)

/-! ## Storage-driver RPC client facade (plugin graphdriver client) -/

structure CreateReq where
  Id : String
  Parent : String
deriving DecidableEq, Repr

structure GetReq where
  Id : String
  MountLabel : String
deriving DecidableEq, Repr

structure DiffReq where
  Id : String
  Parent : String
deriving DecidableEq, Repr

/-- ApplyDiffReq without the archive stream (an opaque reader). -/
structure ApplyDiffReq where
  Id : String
  Parent : String
deriving DecidableEq, Repr

/-- The request envelope of the storage-driver RPC contract: the Func
selector and one payload field per operation (none models the Go zero
value of an unset field). -/
structure PMessage where
  Func : String
  Create : Option CreateReq := none
  Remove : Option String := none
  Put : Option String := none
  Get : Option GetReq := none
  ExistsQ : Option String := none
  Diff : Option DiffReq := none
  Changes : Option DiffReq := none
  ApplyDiff : Option ApplyDiffReq := none
  DiffSize : Option DiffReq := none
deriving DecidableEq, Repr

/-- The twelve operations of the storage-driver RPC contract. -/
inductive StorageOp where
  | createOp | removeOp | getOp | putOp | existsOp | statusOp
  | cleanupOp | diffOp | changesOp | applyDiffOp | diffSizeOp | stringOp
deriving DecidableEq, Repr

/-- The operation name, as registered in the child router (newRouter in the
graphdriver child). -/
def StorageOp.rpcName : StorageOp → String
  | .createOp => "Create"
  | .removeOp => "Remove"
  | .getOp => "Get"
  | .putOp => "Put"
  | .existsOp => "Exists"
  | .statusOp => "Status"
  | .cleanupOp => "Cleanup"
  | .diffOp => "Diff"
  | .changesOp => "Changes"
  | .applyDiffOp => "ApplyDiff"
  | .diffSizeOp => "DiffSize"
  | .stringOp => "String"

/-- The keys of the child router map (newRouter). -/
def routerKeys : List String :=
  ["Status", "Create", "Cleanup", "Get", "Remove", "Diff",
   "Exists", "Changes", "ApplyDiff", "DiffSize", "String", "Put"]

/-- The envelope each client facade method passes to call(): a direct
transcription of the Message literal each method builds (id is the first
string argument, aux the second: parent or mount label).  Each method then
performs exactly one send of this envelope and one blocking receive of the
typed response. -/
def clientMessage (op : StorageOp) (id aux : String) : PMessage :=
  match op with
  | .createOp => { Func := "Create", Create := some ⟨id, aux⟩ }
  | .removeOp => { Func := "Remove", Remove := some id }
  | .getOp => { Func := "Get", Get := some ⟨id, aux⟩ }
  | .putOp => { Func := "Put", Put := some id }
  | .existsOp => { Func := "Exists", ExistsQ := some id }
  | .statusOp => { Func := "Status" }
  | .cleanupOp => { Func := "Cleanup" }
  | .diffOp => { Func := "Diff", Diff := some ⟨id, aux⟩ }
  | .changesOp => { Func := "Changes", Changes := some ⟨id, aux⟩ }
  | .applyDiffOp => { Func := "ApplyDiff", ApplyDiff := some ⟨id, aux⟩ }
  | .diffSizeOp => { Func := "ApplyDiff", DiffSize := some ⟨id, aux⟩ }
  | .stringOp => { Func := "String" }

/-! ## Concrete states used in evaluations and witnesses -/

/-- A repository whose id index already holds the id "a". -/
def volA : Volume :=
  { ID := "a", containers := [], configPath := "/cfg/a",
    config := none, driver := some (.vfs { ID := "a", MountLabel := "", Path := "/data/a" }) }

def repoWithA : Repository :=
  { configPath := "/cfg", volumes := [("/data/a", volA)], idIndex := [("a", volA)] }

/-- A candidate stream whose first draw collides with "a" and whose second
draw is fresh. -/
def randAB : Nat → String := fun n => if n = 0 then "a" else "b"

/-- Filesystem oracle where every stat succeeds (the path exists) and no
symlink resolves. -/
def fsStatOk : FS := { evalSymlinks := fun _ => none, stat := fun _ => .ok }

/-- Filesystem oracle where stat fails with an error that is not
not-exist. -/
def fsStatErr : FS :=
  { evalSymlinks := fun _ => none, stat := fun _ => .errOther "permission denied" }

/-- An empty repository at the usual config root. -/
def repoEmpty : Repository :=
  { configPath := "/var/lib/docker/volumes", volumes := [], idIndex := [] }

def randConst : Nat → String := fun _ => "idX"

/-- The repository being restored in the C4 evaluation. -/
def repoCfg : Repository := { configPath := "/cfg", volumes := [], idIndex := [] }

/-- Disk contents for the C4 evaluation: a valid config under good, an
undecodable one under junk, nothing anywhere else. -/
def diskC4 : String → ReadFileRes := fun p =>
  if p = "/cfg/good/config.json" then
    .found (.good { DriverName := "vfs", Opts := ["path=/data/good"],
                    ID := "good", Path := "", Writable := false, DriverObj := none })
  else if p = "/cfg/junk/config.json" then
    .found (.bad "invalid character")
  else .notExist

/-- A started ExecServer state used to witness C7. -/
def srvStarted : ExecServer := { cmd := some 7, stdin := some 5 }

/-- A spawn environment where every step succeeds. -/
def envOk : SpawnEnv := { pid := 7, stdinHandle := 5 }

/-- A concrete plugin router used to witness C8: one handler that fails. -/
def pluginRouterW : List (String × (Unit → Except GoError Nat)) :=
  [("Create", fun _ => .error "boom")]

/-- A concrete child router used to witness C8. -/
def driverRouterW : List (String × (Unit → Option GoError)) :=
  [("Create", fun _ => none)]

/-- A registered volume referenced by one container. -/
def volBusy : Volume :=
  { ID := "v1", containers := ["cont1"], configPath := "/cfg/v1",
    config := none, driver := some (.vfs { ID := "", MountLabel := "", Path := "/data/v1" }) }

def repoBusy : Repository :=
  { configPath := "/cfg", volumes := [("/data/v1", volBusy)], idIndex := [("v1", volBusy)] }

/-- A registered idle volume whose string key differs from its ID. -/
def volIdle : Volume :=
  { ID := "v2", containers := [], configPath := "/cfg/v2",
    config := none, driver := some (.vfs { ID := "", MountLabel := "", Path := "/data/v2" }) }

def repoIdle : Repository :=
  { configPath := "/cfg", volumes := [("/data/v2", volIdle)], idIndex := [("v2", volIdle)] }

/-- A repository with a vfs volume registered at a concrete path. -/
def volFoo : Volume :=
  { ID := "abc", containers := [], configPath := "/var/lib/docker/volumes/abc",
    config := none, driver := some (.vfs { ID := "", MountLabel := "", Path := "/data/foo" }) }

def repoFoo : Repository :=
  { configPath := "/var/lib/docker/volumes",
    volumes := [("/data/foo", volFoo)], idIndex := [("abc", volFoo)] }

def randNew : Nat → String := fun _ => "newid"

/-- The candidate volume the second call builds at this repository. -/
def volCand : Volume :=
  { ID := "newid", containers := [],
    configPath := "/var/lib/docker/volumes/newid",
    config := some { DriverName := "vfs",
                     Opts := ["path=/data/foo", "id=newid", "home=/var/lib/docker/vfs"] },
    driver := some (.vfs { ID := "", MountLabel := "", Path := "/data/foo" }) }

/-- The volume newVolume builds in the C9 evaluation. -/
def volCand9 : Volume :=
  { ID := "idX", containers := [],
    configPath := "/var/lib/docker/volumes/idX",
    config := some { DriverName := "vfs",
                     Opts := ["path=/data/rt", "id=idX", "home=/var/lib/docker/vfs"] },
    driver := some (.vfs { ID := "", MountLabel := "", Path := "/data/rt" }) }

/-- The fresh volume a restart would rebuild before calling fromDisk: same
ID and configPath, nil config and nil driver. -/
def freshRT : Volume :=
  { ID := "idX", containers := [], configPath := "/var/lib/docker/volumes/idX",
    config := none, driver := none }

/-- Disk holding exactly the record toDisk wrote for the C9 volume. -/
def diskRT : String → ReadFileRes := fun p =>
  if p = "/var/lib/docker/volumes/idX/config.json" then
    .found (.good volCand9.marshal)
  else .notExist

/-! ## Theorems -/



/-- Unrolling of the five-draw id-generation loop. -/
theorem generateId_unfold (r : Repository) (rand : Nat → String) :
    r.generateId rand =
      if (assocGet r.idIndex (rand 0)).isSome then
        if (assocGet r.idIndex (rand 1)).isSome then
          if (assocGet r.idIndex (rand 2)).isSome then
            if (assocGet r.idIndex (rand 3)).isSome then
              if (assocGet r.idIndex (rand 4)).isSome then .error repoIdGenerateErr
              else .ok (rand 4)
            else .ok (rand 3)
          else .ok (rand 2)
        else .ok (rand 1)
      else .ok (rand 0) := rfl

/-- C6: Repository ID generation draws at most 5 candidates; if all five
candidates are already present in the id index it fails with IdGenerateErr,
and if the j-th candidate (j < 5) is the first absent one, it succeeds with
exactly that candidate, which is not in the id index. -/
theorem c6_generate_id (r : Repository) (rand : Nat → String) :
    ((∀ i, i < 5 → (assocGet r.idIndex (rand i)).isSome = true) →
      r.generateId rand = .error repoIdGenerateErr)
    ∧ (∀ j, j < 5 → assocGet r.idIndex (rand j) = none →
        (∀ i, i < j → (assocGet r.idIndex (rand i)).isSome = true) →
        r.generateId rand = .ok (rand j) ∧ assocGet r.idIndex (rand j) = none) := by
  constructor
  · intro h
    have h0 := h 0 (by omega)
    have h1 := h 1 (by omega)
    have h2 := h 2 (by omega)
    have h3 := h 3 (by omega)
    have h4 := h 4 (by omega)
    rw [generateId_unfold, h0, h1, h2, h3, h4]
    rfl
  · intro j hj hfresh hcoll
    refine ⟨?_, hfresh⟩
    rw [generateId_unfold]
    interval_cases j
    · simp [hfresh]
    · have h0 := hcoll 0 (by omega)
      simp [h0, hfresh]
    · have h0 := hcoll 0 (by omega)
      have h1 := hcoll 1 (by omega)
      simp [h0, h1, hfresh]
    · have h0 := hcoll 0 (by omega)
      have h1 := hcoll 1 (by omega)
      have h2 := hcoll 2 (by omega)
      simp [h0, h1, h2, hfresh]
    · have h0 := hcoll 0 (by omega)
      have h1 := hcoll 1 (by omega)
      have h2 := hcoll 2 (by omega)
      have h3 := hcoll 3 (by omega)
      simp [h0, h1, h2, h3, hfresh]

/-- Witness for C6: at the concrete repository and stream, the second draw
is returned and is absent from the id index. -/
theorem c6_generate_id_witness :
    repoWithA.generateId randAB = .ok "b" ∧ assocGet repoWithA.idIndex "b" = none := by
  have h := (c6_generate_id repoWithA randAB).2 1 (by omega) (by decide)
    (by intro i hi
        have : i = 0 := by omega
        subst this
        decide)
  simpa using h

/-- C3: of the twelve storage-driver RPC client methods, eleven send an
envelope whose Func selector equals the operation name registered in the
child router, but DiffSize sends Func "ApplyDiff" while populating the
DiffSize payload field; the child router does hold a "DiffSize" key, which
this selector can never reach. -/
theorem c3_diffsize_selector_mismatch :
    (clientMessage .diffSizeOp "x" "p").Func = "ApplyDiff"
    ∧ ¬ (clientMessage .diffSizeOp "x" "p").Func = StorageOp.rpcName .diffSizeOp
    ∧ (clientMessage .diffSizeOp "x" "p").DiffSize = some ⟨"x", "p"⟩
    ∧ (clientMessage .diffSizeOp "x" "p").ApplyDiff = none
    ∧ "DiffSize" ∈ routerKeys
    ∧ (clientMessage .createOp "x" "p").Func = StorageOp.rpcName .createOp
    ∧ (clientMessage .removeOp "x" "p").Func = StorageOp.rpcName .removeOp
    ∧ (clientMessage .getOp "x" "p").Func = StorageOp.rpcName .getOp
    ∧ (clientMessage .putOp "x" "p").Func = StorageOp.rpcName .putOp
    ∧ (clientMessage .existsOp "x" "p").Func = StorageOp.rpcName .existsOp
    ∧ (clientMessage .statusOp "x" "p").Func = StorageOp.rpcName .statusOp
    ∧ (clientMessage .cleanupOp "x" "p").Func = StorageOp.rpcName .cleanupOp
    ∧ (clientMessage .diffOp "x" "p").Func = StorageOp.rpcName .diffOp
    ∧ (clientMessage .changesOp "x" "p").Func = StorageOp.rpcName .changesOp
    ∧ (clientMessage .applyDiffOp "x" "p").Func = StorageOp.rpcName .applyDiffOp
    ∧ (clientMessage .stringOp "x" "p").Func = StorageOp.rpcName .stringOp := by
  decide

/-- C5: the vfs constructor does NOT fail over a pre-existing location:
when os.Stat succeeds on the resolved path it returns a driver, and it
returns volumedriver.DataExist exactly when stat fails with a
non-not-exist error.  The translation half of the claim does hold:
newVolume maps the DataExist error value to the repository DataExist
error, and passes any other constructor error through unchanged. -/
theorem c5_vfs_dataexist_behavior :
    vfsInit fsStatOk ["path=/data/existing"]
        = .ok { ID := "", MountLabel := "", Path := "/data/existing" }
    ∧ repoEmpty.newVolume randConst fsStatErr "vfs" [] = .error repoDataExist
    ∧ repoEmpty.newVolume randConst fsStatOk "nosuch" [] = .error volumedriverDriverNotExist := by
  exact ⟨rfl, rfl, rfl⟩

/-- C4: restore never behaves as claimed.  An entry with a valid stored
config is not registered: fromDisk cannot decode its own record (the
promoted DriverName and Opts keys must be set through the nil unexported
embedded volumeConfig pointer), so the whole restore panics on the
contemporary toolchain, and from Go 1.10 on the entry is logged and
skipped, registering nothing.  An entry whose config.json is missing is
not skipped either: the not-exist error falls through the IsNotExist
carve-out, the driverless volume reaches add, and the String() call on the
nil driver interface panics, failing the restore as a whole on both
toolchains.  Only the undecodable-config entry is skipped as claimed. -/
theorem c4_restore_divergence :
    repoCfg.restore .go19 fsStatOk diskC4 ["good"] = .panic
    ∧ repoCfg.restore .go110 fsStatOk diskC4 ["good"] = .ok repoCfg
    ∧ repoCfg.restore .go110 fsStatOk diskC4 ["junk"] = .ok repoCfg
    ∧ repoCfg.restore .go19 fsStatOk diskC4 ["missing"] = .panic
    ∧ repoCfg.restore .go110 fsStatOk diskC4 ["missing"] = .panic := by
  exact ⟨rfl, rfl, rfl, rfl, rfl⟩

/-- A successful Start from the idle state determines the new state and
emits exactly one spawn event. -/
theorem start_success_state (s : ExecServer) (env : SpawnEnv) (s' : ExecServer)
    (evs : List ProcEv) (hs : s.cmd = none)
    (h : s.Start env = (s', evs, none)) :
    s' = { s with cmd := some env.pid, stdin := some env.stdinHandle,
                  hasIn := true, hasOut := true }
    ∧ evs = [.spawned env.pid] := by
  unfold ExecServer.Start at h
  rw [hs] at h
  cases h1 : env.socketPairsErr with
  | some e => rw [h1] at h; simp at h
  | none =>
  rw [h1] at h
  cases h2 : env.fileConnOutErr with
  | some e => rw [h2] at h; simp at h
  | none =>
  rw [h2] at h
  cases h3 : env.fileConnInErr with
  | some e => rw [h3] at h; simp at h
  | none =>
  rw [h3] at h
  cases h4 : env.stdinPipeErr with
  | some e => rw [h4] at h; simp at h
  | none =>
  rw [h4] at h
  cases h5 : env.startErr with
  | some e => rw [h5] at h; simp at h
  | none =>
  rw [h5] at h
  cases h6 : env.outTransportErr with
  | some e => rw [h6] at h; simp at h
  | none =>
  rw [h6] at h
  cases h7 : env.sendChanErr with
  | some e => rw [h7] at h; simp at h
  | none =>
  rw [h7] at h
  cases h8 : env.inTransportErr with
  | some e => rw [h8] at h; simp at h
  | none =>
  rw [h8] at h
  cases h9 : env.recvChanErr with
  | some e => rw [h9] at h; simp at h
  | none =>
  rw [h9] at h
  simp only [Prod.mk.injEq] at h
  exact ⟨h.1.symm, h.2.1.symm⟩

/-- C7: a second Start on an already-started ExecServer fails with the
already-loaded error, leaves the state unchanged and spawns nothing; Stop
before any successful Start fails with the not-started error; after a
successful Start, Stop closes the stdin pipe, waits for the child, and
surfaces the wait error as its result. -/
theorem c7_execserver_lifecycle :
    (∀ (s : ExecServer) (env : SpawnEnv) (p : Nat), s.cmd = some p →
      s.Start env = (s, [], some "Plugin already loaded"))
    ∧ (∀ (s : ExecServer) (closeErr waitErr : Option GoError), s.cmd = none →
      s.Stop closeErr waitErr = (s, [], some "Not started"))
    ∧ (∀ (s s' : ExecServer) (env : SpawnEnv) (evs : List ProcEv), s.cmd = none →
      s.Start env = (s', evs, none) →
      ∀ waitErr, s'.Stop none waitErr
        = (s', [.closedStdin env.stdinHandle, .waited env.pid], waitErr)) := by
  refine ⟨?_, ?_, ?_⟩
  · intro s env p hp
    unfold ExecServer.Start
    rw [hp]
  · intro s closeErr waitErr hs
    unfold ExecServer.Stop
    rw [hs]
  · intro s s' env evs hs hstart waitErr
    obtain ⟨hs', _⟩ := start_success_state s env s' evs hs hstart
    subst hs'
    rfl

/-- Witness for C7 at concrete states: the double-Start refusal, the
premature-Stop refusal, and the Stop of a successfully started server. -/
theorem c7_execserver_lifecycle_witness :
    srvStarted.Start envOk = (srvStarted, [], some "Plugin already loaded")
    ∧ ExecServer.Stop {} none (some "exit status 1")
        = ({}, [], some "Not started")
    ∧ ExecServer.Stop { cmd := some 7, stdin := some 5, hasIn := true, hasOut := true }
        none (some "exit status 1")
        = ({ cmd := some 7, stdin := some 5, hasIn := true, hasOut := true },
           [.closedStdin 5, .waited 7], some "exit status 1") := by
  refine ⟨?_, ?_, ?_⟩
  · exact c7_execserver_lifecycle.1 srvStarted envOk 7 rfl
  · exact c7_execserver_lifecycle.2.1 {} none (some "exit status 1") rfl
  · exact c7_execserver_lifecycle.2.2 {} _ envOk [.spawned 7] rfl rfl (some "exit status 1")

/-- Reduction of pluginDispatch on a registered selector. -/
theorem pluginDispatch_pos {α β : Type}
    (router : List (String × (α → Except GoError β))) (sendRes : β → Option GoError)
    (func : String) (env : α) (h : α → Except GoError β)
    (hh : assocGet router func = some h) :
    pluginDispatch router sendRes func env =
      match h env with
      | .error e => ([func], [], some e)
      | .ok resp => ([func], [resp], sendRes resp) := by
  unfold pluginDispatch
  rw [hh]

/-- C8: both routers never invoke a handler for an unregistered Func and
fail with the unsupported-function error; for a registered Func they invoke
exactly that handler, and a handler error is returned to the caller of
dispatch unchanged. -/
theorem c8_dispatch_routing {α β : Type}
    (prouter : List (String × (α → Except GoError β))) (sendRes : β → Option GoError)
    (drouter : List (String × (α → Option GoError))) (func : String) (env msg : α) :
    (assocGet prouter func = none →
      pluginDispatch prouter sendRes func env = ([], [], some (func ++ " not supported")))
    ∧ (∀ h, assocGet prouter func = some h →
        (pluginDispatch prouter sendRes func env).1 = [func]
        ∧ ∀ e, h env = .error e →
            pluginDispatch prouter sendRes func env = ([func], [], some e))
    ∧ (assocGet drouter func = none →
      driverDispatch drouter func msg = ([], some (func ++ " not supported")))
    ∧ (∀ h, assocGet drouter func = some h →
        driverDispatch drouter func msg = ([func], h msg)) := by
  refine ⟨?_, ?_, ?_, ?_⟩
  · intro hn
    unfold pluginDispatch
    rw [hn]
  · intro h hh
    constructor
    · rw [pluginDispatch_pos prouter sendRes func env h hh]
      cases h env <;> rfl
    · intro e he
      rw [pluginDispatch_pos prouter sendRes func env h hh, he]
  · intro hn
    unfold driverDispatch
    rw [hn]
  · intro h hh
    unfold driverDispatch
    rw [hh]

/-- Witness for C8 at concrete routers: the unregistered selector fails
without invoking anything, and the registered failing handler propagates
its error. -/
theorem c8_dispatch_routing_witness :
    pluginDispatch pluginRouterW (fun _ => none) "Nope" ()
        = ([], [], some ("Nope" ++ " not supported"))
    ∧ pluginDispatch pluginRouterW (fun _ => none) "Create" ()
        = (["Create"], [], some "boom")
    ∧ driverDispatch driverRouterW "Nope" () = ([], some ("Nope" ++ " not supported"))
    ∧ driverDispatch driverRouterW "Create" ()
        = (["Create"], (fun _ => none : Unit → Option GoError) ()) := by
  refine ⟨?_, ?_, ?_, ?_⟩
  · exact (c8_dispatch_routing pluginRouterW (fun _ => none) driverRouterW "Nope" () ()).1 rfl
  · exact ((c8_dispatch_routing pluginRouterW (fun _ => none) driverRouterW "Create" () ()).2.1
      (fun _ => .error "boom") rfl).2 "boom" rfl
  · exact (c8_dispatch_routing pluginRouterW (fun _ => none) driverRouterW "Nope" () ()).2.2.1 rfl
  · exact (c8_dispatch_routing pluginRouterW (fun _ => none) driverRouterW "Create" () ()).2.2.2
      (fun _ => none) rfl

/-- C2: Delete on a key resolving to a volume with a non-empty container
set fails with the in-use error, performs no on-disk removal and no driver
Remove, and returns the repository unchanged, so the volume stays
registered in both maps; the error message renders the referencing
container ids. -/
theorem c2_delete_in_use (r : Repository) (removeAllErr : String → Option GoError)
    (driverRemoveErr : VDriver → Option GoError) (key : String) (volume : Volume)
    (c : String) (cs : List String)
    (hget : r.get key = some volume)
    (hcont : volume.containers = c :: cs) :
    r.Delete removeAllErr driverRemoveErr key = .err (inUseMsg volume) r []
    ∧ ∃ pre post, inUseMsg volume = pre ++ (joinSpace volume.containers ++ post) := by
  constructor
  · unfold Repository.Delete
    rw [hget]
    have hlen : volume.Containers.length > 0 := by
      simp [Volume.Containers, hcont]
    simp [hlen]
  · refine ⟨"Volume " ++ volume.Path
      ++ " is being used and cannot be removed: used by containers " ++ "[", "]", ?_⟩
    simp only [inUseMsg, goSliceStr, Volume.Containers, String.append_assoc]

/-- Witness for C2 at a concrete repository. -/
theorem c2_delete_in_use_witness :
    repoBusy.Delete (fun _ => none) (fun _ => none) "/data/v1"
        = .err (inUseMsg volBusy) repoBusy []
    ∧ ∃ pre post, inUseMsg volBusy = pre ++ (joinSpace volBusy.containers ++ post) :=
  c2_delete_in_use repoBusy (fun _ => none) (fun _ => none) "/data/v1" volBusy
    "cont1" [] rfl rfl

/-- C10: Delete resolves its argument in the path-keyed map, not the id
index: for a volume registered under its driver string while its ID is not
a key of the path map, Delete with the ID fails with does-not-exist, while
Delete with the driver string finds the volume and (with an empty
container set and successful effects) removes it from both maps. -/
theorem c10_delete_keyed_by_string (r : Repository) (v : Volume) (d : VDriver)
    (s : String)
    (hd : v.driver = some d) (hs : d.str = s)
    (hreg : assocGet r.volumes s = some v)
    (hid : assocGet r.volumes v.ID = none)
    (hc : v.containers = []) :
    (∀ removeAllErr driverRemoveErr,
      r.Delete removeAllErr driverRemoveErr v.ID
        = .err ("Volume " ++ v.ID ++ " does not exist") r [])
    ∧ r.Delete (fun _ => none) (fun _ => none) s
        = .ok { r with volumes := assocDel s r.volumes,
                       idIndex := assocDel v.ID r.idIndex }
            [.removeAll v.configPath, .driverRemove s] := by
  constructor
  · intro removeAllErr driverRemoveErr
    unfold Repository.Delete
    rw [show r.get v.ID = none from hid]
  · unfold Repository.Delete
    rw [show r.get s = some v from hreg]
    simp [Volume.Containers, hc, hd, hs]

/-- Witness for C10 at a concrete repository. -/
theorem c10_delete_keyed_by_string_witness :
    (repoIdle.Delete (fun _ => none) (fun _ => none) "v2"
        = .err ("Volume " ++ "v2" ++ " does not exist") repoIdle [])
    ∧ repoIdle.Delete (fun _ => none) (fun _ => none) "/data/v2"
        = .ok { repoIdle with volumes := assocDel "/data/v2" repoIdle.volumes,
                              idIndex := assocDel "v2" repoIdle.idIndex }
            [.removeAll "/cfg/v2", .driverRemove "/data/v2"] := by
  have h := c10_delete_keyed_by_string repoIdle volIdle
    (.vfs { ID := "", MountLabel := "", Path := "/data/v2" }) "/data/v2"
    rfl rfl rfl rfl rfl
  exact ⟨h.1 (fun _ => none) (fun _ => none), h.2⟩

/-- C1: when a volume is already registered under the canonical driver
string that the candidate volume of a FindOrCreateVolume call resolves to,
the call returns that registered volume and leaves the repository
unchanged; the driver Create and persistence steps are never consulted
(the conclusion holds for every effect oracle). -/
theorem c1_find_or_create_idempotent (r : Repository) (rand : Nat → String) (fs : FS)
    (driverName : String) (opts : List String) (v v0 : Volume) (d : VDriver) (s : String)
    (hnew : r.newVolume rand fs (if driverName = "" then "vfs" else driverName) opts
        = .ok v)
    (hd : v.driver = some d) (hs : d.str = s)
    (hreg : r.get s = some v0) :
    ∀ createErr persistErr,
      r.FindOrCreateVolume rand fs createErr persistErr driverName opts = .ok (v0, r) := by
  intro createErr persistErr
  unfold Repository.FindOrCreateVolume
  simp only [hnew, hd, hs, hreg]

/-- Witness for C1: the second call over the same path option returns the
registered volume and the unchanged repository. -/
theorem c1_find_or_create_idempotent_witness :
    repoFoo.FindOrCreateVolume randNew fsStatOk (fun _ => none) (fun _ => none)
        "vfs" ["path=/data/foo"] = .ok (volFoo, repoFoo) :=
  c1_find_or_create_idempotent repoFoo randNew fsStatOk "vfs" ["path=/data/foo"]
    volCand volFoo (.vfs { ID := "", MountLabel := "", Path := "/data/foo" }) "/data/foo"
    rfl rfl rfl rfl (fun _ => none) (fun _ => none)

/-- C9: the roundtrip does not hold of the program.  newVolume creates and
toDisk persists the concrete volume; driver reconstruction from the stored
{DriverName, Opts} alone would succeed; but fromDisk on the fresh restart
volume (nil embedded config) never returns success on the record toDisk
wrote: the second json.Unmarshal must set the promoted DriverName and Opts
keys through the nil unexported embedded volumeConfig pointer, panicking
on the contemporary toolchain and failing with a decode error from
Go 1.10 on. -/
theorem c9_roundtrip_decode_fails :
    repoEmpty.newVolume randConst fsStatOk "vfs" ["path=/data/rt"] = .ok volCand9
    ∧ NewDriver fsStatOk volCand9.marshal.DriverName volCand9.marshal.Opts
        = .ok (.vfs { ID := "", MountLabel := "", Path := "/data/rt" })
    ∧ Volume.fromDisk .go19 fsStatOk diskRT freshRT = .panic
    ∧ Volume.fromDisk .go110 fsStatOk diskRT freshRT
        = .err { msg := "error reading volume config json: " ++ jsonEmbeddedPtrErr } := by
  exact ⟨rfl, rfl, rfl, rfl⟩

end DockerVol
